import Mathlib

/-!
Verification development for the GameShelf board-game client
(`src/frontend/src/App.js` and its earlier revisions under `src/unnamed/`).

The file shallowly embeds the client-side session store, catalog search
engine and collection manager of `App.js`.  JavaScript strings are embedded
as `String` (queries, tokens, messages) or `List Char` (where character-level
trimming matters); network round-trips become explicit `Except` arguments so
that every behaviour of a handler is a total Lean function of its inputs;
React `useState` cells and `localStorage` / axios-header globals become
fields of explicit state records that each handler transforms.
-/

/-- Profile returned by `GET /auth/profile` and stored in the `user` state
cell (fields as read by the UI: `username`, `email`, `collection_count`,
`wishlist_count`). -/
structure Profile where
  username : String
  email : String
  collection_count : Nat
  wishlist_count : Nat
deriving DecidableEq, Repr

/-- Session-relevant client state of `AuthProvider` (App.js lines 12-127):
the `localStorage` slot `gameshelf_token`, the React `token` and `user`
cells, and the global axios `Authorization` header. -/
structure SessionState where
  storedToken : Option String
  token : Option String
  user : Option Profile
  authHeader : Option String
deriving DecidableEq, Repr

/-- Bearer-credential header value built by App.js (template
`Bearer ${token}`). -/
def bearer (tok : String) : String := "Bearer " ++ tok

/-- Result value of `login` / `register` in App.js: `{success: true}` or
`{success: false, error}`. -/
inductive LoginResult where
  | success
  | failure (error : String)
deriving DecidableEq, Repr

/-- Embeds `login` (App.js lines 46-68).  `loginResp` is the outcome of
`POST /auth/login`, `profileResp` the outcome of the subsequent
`GET /auth/profile`.  On a successful token exchange the code first
persists the token, sets the `token` cell and attaches the header, and
only then fetches the profile; the surrounding `try`/`catch` returns a
structured error for a failure of either round-trip, without undoing the
already-performed token writes. -/
def login (s : SessionState) (loginResp : Except String String)
    (profileResp : Except String Profile) : SessionState × LoginResult :=
  match loginResp with
  | .error e => (s, .failure e)
  | .ok tok =>
    let s1 : SessionState :=
      { s with storedToken := some tok, token := some tok,
               authHeader := some (bearer tok) }
    match profileResp with
    | .ok p => ({ s1 with user := some p }, .success)
    | .error e => (s1, .failure e)

/-- Embeds `logout` (App.js lines 94-99): removes the persisted token,
nulls the `token` and `user` cells and deletes the `Authorization`
header. -/
def logout (_s : SessionState) : SessionState :=
  { storedToken := none, token := none, user := none, authHeader := none }

/-- Embeds `refreshProfile` (App.js lines 101-112): only acts when a token
is held; on a profile-fetch failure it cascades into `logout`. -/
def refreshProfile (s : SessionState) (profileResp : Except String Profile) :
    SessionState :=
  match s.token with
  | none => s
  | some _ =>
    match profileResp with
    | .ok p => { s with user := some p }
    | .error _ => logout s

/-- Embeds `initializeAuth` (App.js lines 17-44): reads the persisted
token; if absent, settles with state unchanged (Anonymous when nothing was
set); if present, attaches the header, sets the `token` cell and verifies
it by fetching the profile, clearing everything on failure. -/
def initializeAuth (s : SessionState) (profileResp : Except String Profile) :
    SessionState :=
  match s.storedToken with
  | none => s
  | some tok =>
    let s1 : SessionState :=
      { s with authHeader := some (bearer tok), token := some tok }
    match profileResp with
    | .ok p => { s1 with user := some p }
    | .error _ =>
      { s1 with storedToken := none, authHeader := none,
                token := none, user := none }

/-- Collection record as consumed by the `Collection` component
(`GET /collection` payload fields the component reads). -/
structure CollectionItem where
  id : String
  name : String
  user_notes : String
  custom_tags : List String
  is_wishlist : Bool
deriving DecidableEq, Repr

/-- Embeds the `Collection` component's data-loading behaviour (App.js
lines 701-740): its `useEffect` calls `fetchCollection` only `if (user)`;
with no user the component keeps its initial empty `collection` state and
renders the sign-in prompt, issuing no request.  The returned `Bool`
records whether the `GET /collection?is_wishlist=...` request was issued.
On a transport failure the catch only logs, leaving the initial empty
list. -/
def collectionList (user : Option Profile) (_isWishlist : Bool)
    (resp : Except String (List CollectionItem)) :
    List CollectionItem × Bool :=
  match user with
  | none => ([], false)
  | some _ =>
    match resp with
    | .ok items => (items, true)
    | .error _ => ([], true)

/-- Embeds `searchGames` (App.js lines 397-413) as a function of the query
and of the transport outcome of `GET /search?q=...`.  Queries shorter than
2 characters clear the result list and return before any request; the
returned `Bool` records whether the request was issued.  A transport
failure clears the result list. -/
def searchGames (q : String) (resp : Except String (List String)) :
    List String × Bool :=
  if q.length < 2 then ([], false)
  else
    match resp with
    | .ok data => (data, true)
    | .error _ => ([], true)

/-- Result-list state of the `GameSearch` component. -/
structure SearchState where
  searchResults : List String
  loading : Bool
deriving DecidableEq, Repr

/-- Events observable by the `GameSearch` component: issuing a search for a
query, a response for an in-flight query arriving with its payload, or a
transport failure for an in-flight query. -/
inductive SearchEvent where
  | issue (q : String)
  | respond (q : String) (data : List String)
  | fail (q : String)
deriving DecidableEq, Repr

/-- Per-event state transformation of `searchGames` (App.js lines 397-413).
The response handler is `setSearchResults(response.data)` with no request
tagging: whatever response arrives last wins, regardless of which query it
answers. -/
def searchStep (s : SearchState) (e : SearchEvent) : SearchState :=
  match e with
  | .issue q =>
    if q.length < 2 then { s with searchResults := [] }
    else { s with loading := true }
  | .respond _ data => { searchResults := data, loading := false }
  | .fail _ => { searchResults := [], loading := false }

/-- Runs a trace of search events from the component's initial state
(`searchResults = []`, `loading = false`). -/
def runSearch (es : List SearchEvent) : SearchState :=
  es.foldl searchStep { searchResults := [], loading := false }

/-- Debounce state of the `GameSearch` component: the `query` cell and the
`searchTimeout` cell, modelled as the scheduled call's captured query text
together with its fire deadline (schedule time + 300 ms). -/
structure DebounceState where
  query : String
  pendingTimer : Option (String × Nat)
deriving DecidableEq, Repr

/-- Embeds `handleInputChange` (App.js lines 415-427) for a keystroke with
text `v` at time `now`: `clearTimeout` on any pending scheduled query
(represented by overwriting `pendingTimer`) and `setTimeout` of a new
`searchGames v` call 300 ms later. -/
def handleInputChange (_s : DebounceState) (v : String) (now : Nat) :
    DebounceState :=
  { query := v, pendingTimer := some (v, now + 300) }

/-- One keystroke `(v, t)` of the event loop: a pending timer whose
deadline has already been reached fires first (its captured query is
appended to the fired list); then `handleInputChange` runs, cancelling any
still-pending timer and scheduling the new one. -/
def stepKeystroke (acc : DebounceState × List String) (k : String × Nat) :
    DebounceState × List String :=
  let fired :=
    match acc.1.pendingTimer with
    | some (pv, d) => if d ≤ k.2 then acc.2 ++ [pv] else acc.2
    | none => acc.2
  (handleInputChange acc.1 k.1 k.2, fired)

/-- Runs a timestamped keystroke sequence from the component's initial
state (empty query, no scheduled call). -/
def runKeystrokes (ks : List (String × Nat)) : DebounceState × List String :=
  ks.foldl stepKeystroke ({ query := "", pendingTimer := none }, [])

/-- Queries for which `searchGames` is eventually invoked by the keystroke
sequence `ks`: the timers that fired during the sequence, plus the last
scheduled timer, which fires once the input has been quiet. -/
def firedQueries (ks : List (String × Nat)) : List String :=
  match runKeystrokes ks with
  | (s, fired) =>
    match s.pendingTimer with
    | some (pv, _) => fired ++ [pv]
    | none => fired

/-- Catalog requests actually issued by the keystroke sequence `ks`: each
fired `searchGames` call issues a request exactly when its query has at
least 2 characters (App.js line 398). -/
def issuedRequests (ks : List (String × Nat)) : List String :=
  (firedQueries ks).filter (fun q => 2 ≤ q.length)

/-- Characters treated as whitespace by JavaScript `String.prototype.trim`
(restricted to the ASCII range used by the client). -/
def jsWhitespace (c : Char) : Bool :=
  c = ' ' || c = '\t' || c = '\n' || c = '\r' || c = '\x0b' || c = '\x0c'

/-- Leading-whitespace removal over an embedded JS string. -/
def trimLeft (l : List Char) : List Char := l.dropWhile jsWhitespace

/-- Trailing-whitespace removal over an embedded JS string. -/
def trimRight (l : List Char) : List Char :=
  (l.reverse.dropWhile jsWhitespace).reverse

/-- JavaScript `tag.trim()`: strips leading and trailing whitespace. -/
def jsTrim (l : List Char) : List Char := trimRight (trimLeft l)

/-- JavaScript `s.split(',')`: the comma-separated segments of `s`, where
the empty string yields one empty segment. -/
def splitComma : List Char → List (List Char)
  | [] => [[]]
  | c :: cs =>
    if c = ',' then [] :: splitComma cs
    else
      match splitComma cs with
      | [] => [[c]]
      | t :: ts => (c :: t) :: ts

/-- Tag-input parsing performed by `handleAddToCollection` (App.js line
504): `customTags.split(',').map(tag => tag.trim()).filter(tag => tag)`,
where a JS string is falsy exactly when empty. -/
def parseCustomTags (raw : List Char) : List (List Char) :=
  ((splitComma raw).map jsTrim).filter (fun t => !t.isEmpty)

/-- Request body of `POST /collection` as built by
`handleAddToCollection`. -/
structure AddRequest where
  bgg_id : Nat
  user_notes : List Char
  custom_tags : List (List Char)
  is_wishlist : Bool
deriving DecidableEq, Repr

/-- Failure causes of `POST /collection` distinguished by the authority: a
duplicate `(catalogId, isWishlist)` pair (HTTP 409) versus a generic
transport or server failure. -/
inductive AddError where
  | duplicateItem
  | transport
deriving DecidableEq, Repr

/-- Caller-visible outcome of `handleAddToCollection`: the sign-in alert
with no request, success (request submitted, `onAddToCollection` and
`onClose` run), or the failure alert shown by the `catch` block. -/
inductive AddOutcome where
  | notSignedIn
  | added (req : AddRequest)
  | failedAlert (req : AddRequest) (msg : String)
deriving DecidableEq, Repr

/-- Embeds `handleAddToCollection` (App.js lines 496-519; the revision in
`src/unnamed/part_001` lines 144-162 is identical except for the sign-in
guard).  The `catch` block shows one fixed alert for every error. -/
def handleAddToCollection (user : Option Profile) (bggId : Nat)
    (userNotes customTagsRaw : List Char) (isWishlist : Bool)
    (resp : Except AddError Unit) : AddOutcome :=
  match user with
  | none => .notSignedIn
  | some _ =>
    let req : AddRequest :=
      { bgg_id := bggId, user_notes := userNotes,
        custom_tags := parseCustomTags customTagsRaw,
        is_wishlist := isWishlist }
    match resp with
    | .ok _ => .added req
    | .error _ => .failedAlert req "This game is already in your collection!"

/-- Embeds `fetchCounts` of the main `App` component (App.js lines
920-922): its body is a single comment and performs no request and no
state change. -/
def fetchCounts (s : SessionState) : SessionState := s

/-- Embeds `removeFromCollection` (App.js lines 728-736) at the level of
its effects on session state: on success it calls `fetchCollection()` (a
re-list of the affected list, recorded by the returned `Bool`) and
`onRefresh()`, which is the `fetchCounts` above; on failure it only
logs. -/
def removeFromCollection (s : SessionState) (resp : Except String Unit) :
    SessionState × Bool :=
  match resp with
  | .ok _ => (fetchCounts s, true)
  | .error _ => (s, false)

/-- Sample profile used in concrete witnesses and counterexamples. -/
def sampleProfile : Profile :=
  { username := "alice", email := "alice@example.com",
    collection_count := 5, wishlist_count := 2 }

/-- Sample collection item used in concrete witnesses. -/
def sampleItem : CollectionItem :=
  { id := "rec1", name := "Catan", user_notes := "fun",
    custom_tags := ["strategy"], is_wishlist := false }

/-- C2: for every query string of length strictly less than 2, the search
operation yields an empty result set and issues no request to the external
catalog. -/
theorem searchGames_short_query_noop (q : String)
    (resp : Except String (List String)) (h : q.length < 2) :
    searchGames q resp = ([], false) := by
  simp [searchGames, h]

/-- Witness for `searchGames_short_query_noop` at the one-character query
`"a"`, with a response available that would otherwise be displayed. -/
theorem searchGames_short_query_noop_witness :
    ("a".length < 2) ∧ searchGames "a" (.ok ["Catan"]) = ([], false) :=
  ⟨by decide, searchGames_short_query_noop "a" (.ok ["Catan"]) (by decide)⟩

/-- C6: whenever the session is not authenticated (no `user`), the list
operation returns an empty set without issuing any collection request. -/
theorem collectionList_anonymous (user : Option Profile) (w : Bool)
    (resp : Except String (List CollectionItem)) (h : user = none) :
    collectionList user w resp = ([], false) := by
  subst h; rfl

/-- Witness for `collectionList_anonymous`: with no user, even an available
non-empty response is never requested or shown. -/
theorem collectionList_anonymous_witness :
    ((none : Option Profile) = none)
      ∧ collectionList none true (.ok [sampleItem]) = ([], false) :=
  ⟨rfl, collectionList_anonymous none true (.ok [sampleItem]) rfl⟩

/-- C9: `login` (with any outcomes) followed by `logout` followed by
`initializeAuth` (a reload finding no persisted token) yields the
anonymous state: no profile, no token, no persisted token and no attached
authority header. -/
theorem login_logout_initialize_roundtrip (s : SessionState)
    (lr : Except String String) (pr ir : Except String Profile) :
    initializeAuth (logout (login s lr pr).1) ir
      = { storedToken := none, token := none, user := none,
          authHeader := none } := by
  rfl

/-- C3 counterexample: starting anonymous, a `login` whose token exchange
succeeds but whose profile fetch fails returns a structured error, yet the
session state is changed: the persisted token slot holds the new token and
the authority header stays attached. -/
theorem login_profile_failure_retains_token_cex :
    (login { storedToken := none, token := none, user := none,
             authHeader := none } (.ok "tok") (.error "profile down")).2
        = .failure "profile down"
    ∧ (login { storedToken := none, token := none, user := none,
               authHeader := none } (.ok "tok") (.error "profile down")).1.storedToken
        = some "tok"
    ∧ (login { storedToken := none, token := none, user := none,
               authHeader := none } (.ok "tok") (.error "profile down")).1.authHeader
        = some (bearer "tok")
    ∧ (login { storedToken := none, token := none, user := none,
               authHeader := none } (.ok "tok") (.error "profile down")).1
        ≠ { storedToken := none, token := none, user := none,
            authHeader := none } := by
  refine ⟨rfl, rfl, rfl, ?_⟩
  decide

/-- C3 amended: if the credential exchange itself fails, `login` returns a
structured error and leaves session state unchanged; if the exchange
succeeds but the subsequent profile fetch fails, `login` still returns a
structured error, but the token from the exchange remains persisted, set
in component state and attached as the authority header, with only the
profile field left unchanged. -/
theorem login_failure_amended :
    (∀ (s : SessionState) (e : String) (pr : Except String Profile),
        login s (.error e) pr = (s, .failure e))
    ∧ (∀ (s : SessionState) (tok e : String),
        login s (.ok tok) (.error e)
          = ({ s with storedToken := some tok, token := some tok,
                      authHeader := some (bearer tok) }, .failure e)) := by
  exact ⟨fun s e pr => rfl, fun s tok e => rfl⟩

/-- C4: after any `refreshProfile` failure (which presupposes a held
token), the session state is the anonymous state — profile gone, token
cell and persisted slot empty, authority header detached — and a
subsequent list call returns an empty set without issuing a request. -/
theorem refreshProfile_failure_cascades_logout (s : SessionState)
    (tok e : String) (w : Bool)
    (resp : Except String (List CollectionItem))
    (h : s.token = some tok) :
    refreshProfile s (.error e)
        = { storedToken := none, token := none, user := none,
            authHeader := none }
    ∧ collectionList (refreshProfile s (.error e)).user w resp
        = ([], false) := by
  have h1 : refreshProfile s (.error e)
      = { storedToken := none, token := none, user := none,
          authHeader := none } := by
    simp [refreshProfile, h, logout]
  exact ⟨h1, by rw [h1]; rfl⟩

/-- Witness for `refreshProfile_failure_cascades_logout` at a concrete
authenticated state. -/
theorem refreshProfile_failure_cascades_logout_witness :
    (SessionState.token
        { storedToken := some "t", token := some "t",
          user := some sampleProfile, authHeader := some (bearer "t") }
      = some "t")
    ∧ (refreshProfile
          { storedToken := some "t", token := some "t",
            user := some sampleProfile, authHeader := some (bearer "t") }
          (.error "revoked")
        = { storedToken := none, token := none, user := none,
            authHeader := none }
      ∧ collectionList
          (refreshProfile
            { storedToken := some "t", token := some "t",
              user := some sampleProfile, authHeader := some (bearer "t") }
            (.error "revoked")).user
          false (.ok [sampleItem])
        = ([], false)) :=
  ⟨rfl, refreshProfile_failure_cascades_logout _ "t" "revoked" false
      (.ok [sampleItem]) rfl⟩

/-- C5 counterexample: a duplicate-add failure and a generic transport
failure produce the very same caller-visible outcome (one fixed alert), so
the duplicate condition is not distinguishable by the caller. -/
theorem add_duplicate_indistinguishable_cex :
    handleAddToCollection (some sampleProfile) 13 [] [] false
        (.error .duplicateItem)
      = handleAddToCollection (some sampleProfile) 13 [] [] false
        (.error .transport)
    ∧ handleAddToCollection (some sampleProfile) 13 [] [] false
        (.error .duplicateItem)
      = .failedAlert
          { bgg_id := 13, user_notes := [], custom_tags := [],
            is_wishlist := false }
          "This game is already in your collection!" :=
  ⟨rfl, rfl⟩

/-- C5 amended: when `add` fails, the caller receives one and the same
generic alert regardless of whether the failure was a duplicate
`(catalogId, isWishlist)` pair or a transport failure — the duplicate
condition is not distinguishable from a generic transport failure. -/
theorem add_failure_uniform (p : Profile) (i : Nat)
    (notes raw : List Char) (w : Bool) (e e' : AddError) :
    handleAddToCollection (some p) i notes raw w (.error e)
      = handleAddToCollection (some p) i notes raw w (.error e') := by
  cases e <;> cases e' <;> rfl

/-- C7: after a successful remove the component does trigger a re-list of
the affected list, but the profile-count refresh it invokes (`fetchCounts`)
has an empty body, so the session state — including the cached
`collection_count` and `wishlist_count` — is left entirely unchanged, and
the counts are not re-derived from the authority.  Stated generally and
evaluated at a concrete stale-count state. -/
theorem remove_leaves_counts_unrefreshed :
    (∀ (s : SessionState),
        removeFromCollection s (.ok ()) = (s, true) ∧ fetchCounts s = s)
    ∧ removeFromCollection
        { storedToken := some "t", token := some "t",
          user := some sampleProfile, authHeader := some (bearer "t") }
        (.ok ())
      = ({ storedToken := some "t", token := some "t",
           user := some sampleProfile, authHeader := some (bearer "t") },
         true) :=
  ⟨fun _ => ⟨rfl, rfl⟩, rfl⟩

/-- C1 counterexample: issue "cat" then "catan" (strictly increasing issue
order); the response for "catan" arrives first, then the stale response
for "cat".  The final visible result set is the stale "cat" payload, not
the last-issued query's payload — a superseded response overwrote a later
query's results. -/
theorem stale_response_overwrites_cex :
    (runSearch [SearchEvent.issue "cat", SearchEvent.issue "catan",
                SearchEvent.respond "catan" ["Catan", "Catan Junior"],
                SearchEvent.respond "cat" ["Cat Lady"]]).searchResults
        = ["Cat Lady"]
    ∧ (["Cat Lady"] : List String) ≠ ["Catan", "Catan Junior"] :=
  ⟨rfl, by decide⟩

/-- C1 amended: the result set visible after all responses resolve equals
the payload of the response that arrived last — the handler stores every
arriving payload unconditionally, with no sequence tagging and no
discarding of stale responses — regardless of the issue order of the
queries. -/
theorem search_results_follow_last_arrival (es : List SearchEvent)
    (q : String) (d : List String) :
    (runSearch (es ++ [SearchEvent.respond q d])).searchResults = d := by
  simp [runSearch, List.foldl_append, searchStep]

/-- A keystroke arriving strictly before the pending timer's deadline
cancels it: no query fires, and the keystroke's own query is scheduled
300 ms out. -/
theorem stepKeystroke_cancels (s : DebounceState) (fired : List String)
    (w : String) (u : Nat)
    (h : ∀ pv d, s.pendingTimer = some (pv, d) → u < d) :
    stepKeystroke (s, fired) (w, u)
      = ({ query := w, pendingTimer := some (w, u + 300) }, fired) := by
  unfold stepKeystroke handleInputChange
  cases hp : s.pendingTimer with
  | none => simp
  | some p =>
    obtain ⟨pv, d⟩ := p
    have hu := h pv d hp
    simp [hp, Nat.not_le.mpr hu]

/-- Folding a burst of keystrokes, each arriving strictly within 300 ms of
its predecessor, from a state whose pending timer (if any) has not yet
reached its deadline: no timer ever fires, and afterwards exactly the last
keystroke's query is scheduled. -/
theorem foldl_keystrokes_burst :
    ∀ (ks : List (String × Nat)) (v : String) (t : Nat)
      (s : DebounceState) (fired : List String),
      List.Chain' (fun a b : String × Nat => b.2 < a.2 + 300)
        (ks ++ [(v, t)]) →
      (∀ pv d, s.pendingTimer = some (pv, d) →
        ∀ w u, (ks ++ [(v, t)]).head? = some (w, u) → u < d) →
      (ks ++ [(v, t)]).foldl stepKeystroke (s, fired)
        = ({ query := v, pendingTimer := some (v, t + 300) }, fired) := by
  intro ks
  induction ks with
  | nil =>
    intro v t s fired _ hpend
    rw [List.nil_append, List.foldl_cons, List.foldl_nil]
    exact stepKeystroke_cancels s fired v t
      (fun pv d hp => hpend pv d hp v t rfl)
  | cons k rest ih =>
    intro v t s fired hchain hpend
    obtain ⟨w, u⟩ := k
    rw [List.cons_append, List.foldl_cons]
    rw [stepKeystroke_cancels s fired w u
      (fun pv d hp => hpend pv d hp w u rfl)]
    rw [List.cons_append, List.chain'_cons'] at hchain
    obtain ⟨hhead, hchain'⟩ := hchain
    refine ih v t _ fired hchain' ?_
    intro pv d hp w' u' hh
    have hpd : pv = w ∧ d = u + 300 := by
      have : some (pv, d) = some (w, u + 300) := hp.symm.trans rfl
      injection this with h1
      exact ⟨congrArg Prod.fst h1, congrArg Prod.snd h1⟩
    obtain ⟨_, hd⟩ := hpd
    subst hd
    exact hhead (w', u') hh

/-- C8: for a burst of keystrokes in which every keystroke arrives
strictly within the 300 ms quiet period of its predecessor, each keystroke
cancels the previously scheduled query; only the timer scheduled by the
final keystroke fires, so `searchGames` runs exactly once with the latest
query text typed, and (when the latest text reaches the 2-character floor)
exactly one catalog request is issued, carrying that latest text. -/
theorem debounce_single_request (ks : List (String × Nat)) (v : String)
    (t : Nat)
    (hchain : List.Chain' (fun a b : String × Nat => b.2 < a.2 + 300)
      (ks ++ [(v, t)])) :
    firedQueries (ks ++ [(v, t)]) = [v]
    ∧ (2 ≤ v.length → issuedRequests (ks ++ [(v, t)]) = [v]) := by
  have hrun : runKeystrokes (ks ++ [(v, t)])
      = ({ query := v, pendingTimer := some (v, t + 300) }, []) := by
    unfold runKeystrokes
    exact foldl_keystrokes_burst ks v t _ [] hchain (by intro pv d hp; simp at hp)
  have hfq : firedQueries (ks ++ [(v, t)]) = [v] := by
    unfold firedQueries
    rw [hrun]
    rfl
  refine ⟨hfq, fun hlen => ?_⟩
  unfold issuedRequests
  rw [hfq]
  simp [hlen]

/-- Witness for `debounce_single_request`: the user types "c", "ca", "cat"
100 ms apart; only one `searchGames` call fires, for "cat", and exactly
one request is issued, for "cat". -/
theorem debounce_single_request_witness :
    List.Chain' (fun a b : String × Nat => b.2 < a.2 + 300)
      ([("c", 0), ("ca", 100)] ++ [("cat", 200)])
    ∧ (firedQueries ([("c", 0), ("ca", 100)] ++ [("cat", 200)]) = ["cat"]
      ∧ (2 ≤ "cat".length →
          issuedRequests ([("c", 0), ("ca", 100)] ++ [("cat", 200)])
            = ["cat"])) :=
  ⟨by simp [List.chain'_cons, List.chain'_singleton],
   debounce_single_request [("c", 0), ("ca", 100)] "cat" 200
     (by simp [List.chain'_cons, List.chain'_singleton])⟩

/-- The trailing-whitespace trim coincides with Mathlib's `rdropWhile`. -/
theorem trimRight_eq_rdropWhile (l : List Char) :
    trimRight l = List.rdropWhile jsWhitespace l := rfl

/-- A prefix of a list that is already `dropWhile`-fixed is itself
`dropWhile`-fixed: its first element, if any, is the first element of the
larger list, which fails the predicate. -/
theorem dropWhile_fix_of_prefix {α : Type} (p : α → Bool) (r m : List α)
    (hpre : r <+: m) (hm : m.dropWhile p = m) : r.dropWhile p = r := by
  cases r with
  | nil => rfl
  | cons c r' =>
    obtain ⟨t, ht⟩ := hpre
    rw [List.cons_append] at ht
    subst ht
    have hc : p c = false := by
      cases hcc : p c with
      | false => rfl
      | true =>
        rw [List.dropWhile_cons_of_pos hcc] at hm
        have hlen : ((r' ++ t).dropWhile p).length = (r' ++ t).length + 1 := by
          rw [hm, List.length_cons]
        have hle : ((r' ++ t).dropWhile p).length ≤ (r' ++ t).length :=
          (List.dropWhile_suffix p).length_le
        omega
    rw [List.dropWhile_cons_of_neg (by simp [hc])]

/-- JavaScript `trim` is idempotent: trimming a trimmed string changes
nothing. -/
theorem jsTrim_idem (l : List Char) : jsTrim (jsTrim l) = jsTrim l := by
  have hm : (trimLeft l).dropWhile jsWhitespace = trimLeft l :=
    List.dropWhile_idempotent jsWhitespace l
  have hpre : trimRight (trimLeft l) <+: trimLeft l := by
    rw [trimRight_eq_rdropWhile]
    exact List.rdropWhile_prefix jsWhitespace (trimLeft l)
  have h1 : trimLeft (trimRight (trimLeft l)) = trimRight (trimLeft l) :=
    dropWhile_fix_of_prefix jsWhitespace _ _ hpre hm
  show trimRight (trimLeft (trimRight (trimLeft l))) = trimRight (trimLeft l)
  rw [h1]
  simp only [trimRight_eq_rdropWhile]
  exact List.rdropWhile_idempotent jsWhitespace (trimLeft l)

/-- C10: the `custom_tags` list that `handleAddToCollection` submits
consists of exactly the comma-separated segments of the raw input with
surrounding whitespace trimmed and all empty segments removed: every
submitted tag is a trimmed segment, is non-empty and carries no leading or
trailing whitespace, and conversely every segment whose trim is non-empty
is submitted. -/
theorem customTags_trimmed_nonempty (raw : List Char) :
    (∀ t ∈ parseCustomTags raw,
        t ≠ [] ∧ jsTrim t = t ∧ ∃ seg ∈ splitComma raw, t = jsTrim seg)
    ∧ (∀ seg ∈ splitComma raw, jsTrim seg ≠ [] →
        jsTrim seg ∈ parseCustomTags raw) := by
  constructor
  · intro t ht
    unfold parseCustomTags at ht
    rw [List.mem_filter] at ht
    obtain ⟨hmem, hne⟩ := ht
    rw [List.mem_map] at hmem
    obtain ⟨seg, hseg, hts⟩ := hmem
    have htne : t ≠ [] := by
      intro h
      rw [h] at hne
      simp at hne
    refine ⟨htne, ?_, seg, hseg, hts.symm⟩
    rw [← hts]
    exact jsTrim_idem seg
  · intro seg hseg hne
    unfold parseCustomTags
    rw [List.mem_filter]
    refine ⟨List.mem_map.mpr ⟨seg, hseg, rfl⟩, ?_⟩
    cases h : jsTrim seg with
    | nil => exact absurd h hne
    | cons c cs => rfl

/-- Witness for `customTags_trimmed_nonempty` on the raw input
`" a ,, b"`: the submitted tag `"a"` is non-empty, trim-fixed, and the
trim of the first comma segment. -/
theorem customTags_trimmed_nonempty_witness :
    (['a'] ∈ parseCustomTags [' ', 'a', ' ', ',', ',', ' ', 'b'])
    ∧ (['a'] ≠ [] ∧ jsTrim ['a'] = ['a']
        ∧ ∃ seg ∈ splitComma [' ', 'a', ' ', ',', ',', ' ', 'b'],
            ['a'] = jsTrim seg) :=
  ⟨by decide,
   (customTags_trimmed_nonempty [' ', 'a', ' ', ',', ',', ' ', 'b']).1
     ['a'] (by decide)⟩
